import Mathlib

/-!
Shallow embedding of the Netherworld EXP tracker session engine
(`scripts/exp_tracker.py`): leaderboard parser, resilient fetcher,
session lock, orchestrator (`main`) and the append-only store rows.
Timestamps are modelled as integers (seconds); experience percentages
as rationals; the HTML document is modelled at the level the parser
consumes it (headings, each with the table following it, a table being
a list of rows of cell texts).
-/

namespace ExpTracker

/-- Python str.strip / regex whitespace class for the characters used here. -/
def pySpace (c : Char) : Bool :=
  c = ' ' || c = '\t' || c = '\n' || c = '\r' || c = '\x0b' || c = '\x0c'

/-- Python `str.strip()`: remove leading and trailing whitespace. -/
def pyStrip (s : String) : String :=
  String.mk (((s.data.dropWhile pySpace).reverse.dropWhile pySpace).reverse)

/-- Numeric value of a digit string, most significant first. -/
def digitsVal (ds : List Char) : Nat :=
  ds.foldl (fun acc c => 10 * acc + (c.toNat - 48)) 0

/-- Python `int(s)`: optional surrounding whitespace, optional sign, digits. -/
def pyInt (s : String) : Option Int :=
  let cs := s.data.dropWhile pySpace
  let signAndRest : Int × List Char :=
    match cs with
    | '-' :: r => (-1, r)
    | '+' :: r => (1, r)
    | r => (1, r)
  let ds := signAndRest.2.takeWhile Char.isDigit
  let rest := signAndRest.2.dropWhile Char.isDigit
  if ds = [] then none
  else if rest.dropWhile pySpace ≠ [] then none
  else some (signAndRest.1 * (digitsVal ds : Int))

/-- Value of `float("<ds1>.<ds2>")` (ds2 may be empty), as an exact rational. -/
def ratOfParts (ds1 ds2 : List Char) : ℚ :=
  (digitsVal ds1 : ℚ) + (digitsVal ds2 : ℚ) / (10 : ℚ) ^ ds2.length

/-- The experience-cell regex `^\s*([0-9]*\.?[0-9]+)\s*%\s*$` of
`parse_netherworld`: the captured group, as its integer and fractional
digit lists, or `none` when the cell does not match. -/
def matchExpParts (s : String) : Option (List Char × List Char) :=
  let cs := s.data.dropWhile pySpace
  let ds1 := cs.takeWhile Char.isDigit
  let afterInt := cs.dropWhile Char.isDigit
  match afterInt with
  | '.' :: r =>
      let ds2 := r.takeWhile Char.isDigit
      let afterFrac := r.dropWhile Char.isDigit
      if ds2 = [] then none
      else
        match afterFrac.dropWhile pySpace with
        | '%' :: tail =>
            if tail.dropWhile pySpace = [] then some (ds1, ds2) else none
        | _ => none
  | _ =>
      if ds1 = [] then none
      else
        match afterInt.dropWhile pySpace with
        | '%' :: tail =>
            if tail.dropWhile pySpace = [] then some (ds1, []) else none
        | _ => none

/-- `float(m.group(1))` applied to a successful regex match. -/
def matchExp (s : String) : Option ℚ :=
  (matchExpParts s).map (fun p => ratOfParts p.1 p.2)

/-- Does `needle` start `haystack`? -/
def charsStartWith : List Char → List Char → Bool
  | [], _ => true
  | _ :: _, [] => false
  | a :: as, b :: bs => a = b && charsStartWith as bs

/-- Does `needle` occur contiguously inside `haystack`? -/
def charsContain (needle : List Char) : List Char → Bool
  | [] => charsStartWith needle []
  | c :: cs => charsStartWith needle (c :: cs) || charsContain needle cs

/-- Python `needle in haystack` for strings. -/
def strContains (haystack needle : String) : Bool :=
  charsContain needle.data haystack.data

/-- Python `str.lower()` (ASCII case folding, as `Char.toLower` does). -/
def strToLower (s : String) : String :=
  String.mk (s.data.map Char.toLower)

/-- Python `str.split(sep)` for a single-character separator. -/
def splitOnChar (sep : Char) (cs : List Char) : List (List Char) :=
  cs.foldr
    (fun c acc =>
      match acc with
      | [] => if c = sep then [[], []] else [[c]]
      | seg :: rest => if c = sep then [] :: seg :: rest else (c :: seg) :: rest)
    [[]]

/-- One parsed leaderboard entry (`CharSnapshot` dataclass). -/
structure CharSnapshot where
  character : String
  level : Int
  exp_pct : ℚ
  deriving DecidableEq, Repr

/-- A section of the ranking page as the parser sees it: an `h4.card-title`
heading text together with the first `table` following it (if any). -/
structure Section where
  heading : String
  tableAfter : Option (List (List String))
  deriving DecidableEq

/-- The ranking document, at the granularity `parse_netherworld` consumes. -/
abbrev Html := List Section

/-- Snapshot mapping, keyed by character name (a Python dict). -/
abbrev SnapMap := List (String × CharSnapshot)

/-- Python dict assignment `m[k] = v`: replace the binding if the key is
present, otherwise append. -/
def dictInsert (m : SnapMap) (k : String) (v : CharSnapshot) : SnapMap :=
  match m with
  | [] => [(k, v)]
  | (k', v') :: rest =>
      if k' = k then (k, v) :: rest else (k', v') :: dictInsert rest k v

/-- Python dict lookup `m.get(k)`. -/
def dictGet (m : SnapMap) (k : String) : Option CharSnapshot :=
  match m with
  | [] => none
  | (k', v') :: rest => if k' = k then some v' else dictGet rest k

/-- Processing of one `<tr>` by `parse_netherworld`: at least 6 cells,
name from cell 1, level from cell 2 via `int`, experience from cell 4 via
the percent regex; any failure skips the row. -/
def parseRowSnap (tds : List String) : Option CharSnapshot :=
  if tds.length < 6 then none
  else
    let name := pyStrip (tds.getD 1 "")
    let levelText := pyStrip (tds.getD 2 "")
    let expText := pyStrip (tds.getD 4 "")
    if name = "" then none
    else
      match pyInt levelText with
      | none => none
      | some lvl =>
          match matchExp expText with
          | none => none
          | some pct => some ⟨name, lvl, pct⟩

/-- The row loop of `parse_netherworld`: fold all rows into a dict,
later rows overwriting earlier ones with the same name. -/
def snapFold (rows : List (List String)) : SnapMap :=
  rows.foldl
    (fun m tds =>
      match parseRowSnap tds with
      | none => m
      | some s => dictInsert m s.character s)
    []

/-- Heading search of `parse_netherworld`: the first heading containing
"netherworld" case-insensitively determines the target table. -/
def findTargetTable (html : Html) : Option (Option (List (List String))) :=
  match html with
  | [] => none
  | s :: rest =>
      if strContains (strToLower s.heading) "netherworld" then some s.tableAfter
      else findTargetTable rest

/-- `parse_netherworld`: locate the Netherworld table and fold its rows;
raises `RuntimeError` when no heading matches or no table follows. -/
def parse_netherworld (html : Html) : Except String SnapMap :=
  match findTargetTable html with
  | none => .error "Netherworld Tabelle nicht gefunden"
  | some none => .error "Netherworld Tabelle nicht gefunden"
  | some (some rows) => .ok (snapFold rows)

/-- Outcome of one fetch run: the sleep durations performed (in order),
the number of attempts made, and the result. `Except.error none` models
the degenerate `raise last_exc` with `last_exc = None` (retries = 0). -/
structure FetchRun (E A : Type) where
  sleeps : List Nat
  attempts : Nat
  result : Except (Option E) A

/-- The retry loop of `fetch_html_with_retries`, parameterised by the
outcome `att i` of the i-th request (1-based). Mirrors
`for attempt in range(1, retries + 1)` with `time.sleep(backoff * attempt)`
after each failed non-final attempt and `raise last_exc` at the end. -/
def fetchAux {E A : Type} (att : Nat → Except E A) (retries backoff : Nat) :
    Nat → Option E → FetchRun E A
  | attempt, lastExc =>
    if retries < attempt then ⟨[], 0, .error lastExc⟩
    else
      match att attempt with
      | .ok a => ⟨[], 1, .ok a⟩
      | .error e =>
          let rest := fetchAux att retries backoff (attempt + 1) (some e)
          ⟨(if attempt < retries then [backoff * attempt] else []) ++ rest.sleeps,
           1 + rest.attempts, rest.result⟩
  termination_by attempt _ => retries + 1 - attempt

/-- `fetch_html_with_retries(url, retries, backoff_seconds)` with the
network abstracted as the per-attempt outcome function `att`. -/
def fetch_html_with_retries {E A : Type} (att : Nat → Except E A)
    (retries backoff : Nat) : FetchRun E A :=
  fetchAux att retries backoff 1 none

/-- The header row written to `errors.csv` by `ensure_files`. -/
def errorsHeader : List String :=
  ["run_id", "character", "timestamp", "error_message"]

/-- The row appended by `write_error(run_id, character, message)`, with
`ts` the formatted current timestamp. -/
def write_error_row (runId ts character message : String) : List String :=
  [runId, ts, character ++ " Fehler " ++ message]

/-- One dungeon entry of `config/dungeons.json`. -/
structure DungeonDef where
  stages : Int
  difficulties : List String

/-- The parsed `dungeons.json` payload: the `"dungeons"` mapping as an
association list in insertion order. -/
abbrev DungeonsCfg := List (String × DungeonDef)

/-- `validate_dungeon(dungeon, stage, difficulty)`; `cfg = none` models a
missing `config/dungeons.json` (raises `FileNotFoundError`). The
lower-cased key map keeps the later of two clashing keys, as a Python
dict comprehension does. -/
def validate_dungeon (cfg : Option DungeonsCfg) (dungeon : String)
    (stage : Int) (difficulty : String) : Except String Unit :=
  match cfg with
  | none => .error "config/dungeons.json fehlt"
  | some ddefs =>
      let dkey := pyStrip (strToLower dungeon)
      match ddefs.reverse.find? (fun kv => strToLower kv.1 = dkey) with
      | none => .error ("Dungeon unbekannt " ++ dungeon)
      | some kv =>
          if stage < 1 ∨ kv.2.stages < stage then .error "Stage außerhalb"
          else if (kv.2.difficulties.map strToLower).contains
              (pyStrip (strToLower difficulty)) = false then
            .error ("Schwierigkeit nicht erlaubt " ++ difficulty)
          else .ok ()

/-- `read_characters()`; `lines = none` models a missing characters file. -/
def read_characters (lines : Option (List String)) : Except String (List String) :=
  match lines with
  | none => .error "Datei fehlt characters.txt"
  | some ls =>
      let names := ls.filterMap (fun l =>
        let n := pyStrip l
        if n = "" then none else some n)
      if names = [] then .error "characters.txt enthaelt keine Namen"
      else .ok names

/-- The `ts_old` computation of the lock check: split the marker content
on `|`; a second field is parsed as an ISO timestamp, a parse failure
falls to the `except` arm (`started_dt - timedelta(hours=2)`), and a
missing second field leaves `ts_old = started_dt`. `isoParse` abstracts
`datetime.fromisoformat`; times are seconds. -/
def lockTsOld (isoParse : String → Option Int) (startedAt : Int)
    (content : String) : Int :=
  let parts := (splitOnChar '|' (pyStrip content).data).map String.mk
  match parts.get? 1 with
  | none => startedAt
  | some p =>
      match isoParse p with
      | some t => t
      | none => startedAt - 7200

/-- The lock gate of `main` (lines 219–229): `true` means the session
proceeds (and will overwrite the marker), `false` means it refuses with
exit code 1. The staleness threshold is `timedelta(minutes=90)` = 5400 s. -/
def lockProceeds (isoParse : String → Option Int) (startedAt : Int)
    (marker : Option String) : Bool :=
  match marker with
  | none => true
  | some content => !(startedAt - lockTsOld isoParse startedAt content < 5400)

/-- One row of `results_per_char.csv` before CSV formatting: the tuple
`(c, l0, e0, l1, e1, g)` built in the reconciliation loop of `main`. -/
structure ResultRow where
  character : String
  level_start : Option Int
  exp_start : Option ℚ
  level_end : Option Int
  exp_end : Option ℚ
  gain : Option ℚ
  deriving DecidableEq, Repr

/-- The start-values loop (`main` lines 237–242): restrict the first
snapshot to the tracked characters. -/
def startMap (characters : List String) (snap0 : SnapMap) : SnapMap :=
  characters.foldl
    (fun m c =>
      match dictGet snap0 c with
      | some s => dictInsert m c s
      | none => m)
    []

/-- The error events of the start-values loop, in character order. -/
def sampleErrors (characters : List String) (snap0 : SnapMap) :
    List (String × String) :=
  characters.filterMap (fun c =>
    if (dictGet snap0 c).isSome then none
    else some (c, "Name beim ersten Abruf nicht gefunden"))

/-- One iteration of the reconciliation loop (`main` lines 254–268),
producing the row for character `c` from `start_map` and `snap1`. -/
def buildRow (start_map snap1 : SnapMap) (c : String) : ResultRow :=
  let s0 := dictGet start_map c
  let s1 := dictGet snap1 c
  { character := c
    level_start := s0.map CharSnapshot.level
    exp_start := s0.map CharSnapshot.exp_pct
    level_end := s1.map CharSnapshot.level
    exp_end := s1.map CharSnapshot.exp_pct
    gain :=
      match s0.map CharSnapshot.exp_pct, s1.map CharSnapshot.exp_pct with
      | some e0, some e1 => some (e1 - e0)
      | _, _ => none }

/-- All result rows of a session, one per tracked character in order. -/
def sessionRows (characters : List String) (snap0 snap1 : SnapMap) :
    List ResultRow :=
  characters.map (buildRow (startMap characters snap0) snap1)

/-- The error events of the reconciliation loop, in loop order
("Kein Startwert" before "Kein Endwert" for each character). -/
def reconErrors (characters : List String) (start_map snap1 : SnapMap) :
    List (String × String) :=
  characters.flatMap (fun c =>
    (if (dictGet start_map c).isSome then [] else [(c, "Kein Startwert")]) ++
    (if (dictGet snap1 c).isSome then [] else [(c, "Kein Endwert")]))

/-- Observable effects of one invocation of `main`, in program order. -/
inductive Eff
  | ensureFiles
  | writeLock (content : String)
  | writeError (runId character message : String)
  | sleep (seconds : Int)
  | appendResults (runId : String) (rows : List ResultRow)
  | appendRun (runId note : String)
  | unlinkLock (ok : Bool)
  deriving DecidableEq

/-- How the process ends: `exit c` is `sys.exit(c)` (or falling off the
end of `main`, `exit 0`); `raised m` is an uncaught exception. -/
inductive Outcome
  | exit (code : Nat)
  | raised (message : String)
  deriving DecidableEq

/-- The environment of one invocation: CLI arguments, config files, the
lock marker on disk, the clock, and the outcomes of the two network
fetches (each abstracting one `fetch_html_with_retries` call: `.ok` is the
fetched document, `.error` the exception text after retry exhaustion). -/
structure Env where
  startedAt : Int
  runId : String
  startedIso : String
  note : String
  sleepSeconds : Int
  marker : Option String
  isoParse : String → Option Int
  dungeonsJson : Option DungeonsCfg
  dungeonArg : String
  stageArg : Int
  difficultyArg : String
  charactersLines : Option (List String)
  fetch1 : Except String Html
  fetch2 : Except String Html
  unlinkFails : Bool

/-- The body of the `try` block of `main` (lines 233–277): both
fetch+parse samples, the per-character error writes, the wait, the rows
and the two appends. Returns the effect trace together with `.ok` or the
first exception raised. -/
def sessionBody (env : Env) (characters : List String) :
    List Eff × Except String Unit :=
  match env.fetch1 with
  | .error e => ([], .error e)
  | .ok html1 =>
    match parse_netherworld html1 with
    | .error e => ([], .error e)
    | .ok snap0 =>
      let tr1 :=
        (sampleErrors characters snap0).map
          (fun p => Eff.writeError env.runId p.1 p.2) ++
        [Eff.sleep (max 1 env.sleepSeconds)]
      match env.fetch2 with
      | .error e => (tr1, .error e)
      | .ok html2 =>
        match parse_netherworld html2 with
        | .error e => (tr1, .error e)
        | .ok snap1 =>
          let sm := startMap characters snap0
          (tr1 ++
            (reconErrors characters sm snap1).map
              (fun p => Eff.writeError env.runId p.1 p.2) ++
            [Eff.appendResults env.runId (sessionRows characters snap0 snap1),
             Eff.appendRun env.runId env.note],
           .ok ())

/-- `main()`: file setup, dungeon validation, character list, the
expiring lock, the guarded session body, the `except` arm appending a
failure SessionRecord before `sys.exit(2)`, and the `finally` arm
best-effort deleting the lock marker. -/
def runMain (env : Env) : List Eff × Outcome :=
  let tr0 := [Eff.ensureFiles]
  match validate_dungeon env.dungeonsJson env.dungeonArg env.stageArg
      env.difficultyArg with
  | .error e => (tr0, .raised e)
  | .ok _ =>
    match read_characters env.charactersLines with
    | .error e => (tr0, .raised e)
    | .ok characters =>
      if lockProceeds env.isoParse env.startedAt env.marker = false then
        (tr0, .exit 1)
      else
        let tr1 := tr0 ++ [Eff.writeLock (env.runId ++ "|" ++ env.startedIso)]
        let body := sessionBody env characters
        match body.2 with
        | .ok _ =>
            (tr1 ++ body.1 ++ [Eff.unlinkLock (!env.unlinkFails)], .exit 0)
        | .error e =>
            (tr1 ++ body.1 ++
              [Eff.appendRun env.runId ("Fehler " ++ e),
               Eff.unlinkLock (!env.unlinkFails)],
             .exit 2)

/-! ### Helper lemmas -/

theorem dictGet_dictInsert (m : SnapMap) (k k' : String) (v : CharSnapshot) :
    dictGet (dictInsert m k v) k' = if k' = k then some v else dictGet m k' := by
  induction m with
  | nil =>
      by_cases h : k' = k
      · subst h; simp [dictInsert, dictGet]
      · rw [if_neg h]
        simp only [dictInsert, dictGet]
        rw [if_neg (fun hh => h hh.symm)]
  | cons hd tl ih =>
      obtain ⟨a, w⟩ := hd
      simp only [dictInsert]
      by_cases hak : a = k
      · rw [if_pos hak]
        show (if k = k' then some v else dictGet tl k') = _
        by_cases h : k = k'
        · rw [if_pos h, if_pos h.symm]
        · rw [if_neg h, if_neg (fun hh => h hh.symm)]
          show _ = (if a = k' then some w else dictGet tl k')
          rw [if_neg (fun hh => h (hak.symm.trans hh))]
      · rw [if_neg hak]
        show (if a = k' then some w else dictGet (dictInsert tl k v) k') = _
        by_cases h : a = k'
        · rw [if_pos h, if_neg (fun hh => hak (h.trans hh))]
          show some w = (if a = k' then some w else dictGet tl k')
          rw [if_pos h]
        · rw [if_neg h, ih]
          show _ = if k' = k then some v else (if a = k' then some w else dictGet tl k')
          rw [if_neg h]

theorem mem_dictInsert (m : SnapMap) (k : String) (v : CharSnapshot)
    (p : String × CharSnapshot) (hp : p ∈ dictInsert m k v) :
    p = (k, v) ∨ p ∈ m := by
  induction m with
  | nil => simpa [dictInsert] using hp
  | cons hd tl ih =>
      obtain ⟨a, w⟩ := hd
      by_cases hak : a = k
      · subst hak
        simp only [dictInsert, if_pos rfl] at hp
        rcases List.mem_cons.mp hp with h | h
        · exact Or.inl h
        · exact Or.inr (List.mem_cons_of_mem _ h)
      · simp only [dictInsert, if_neg hak] at hp
        rcases List.mem_cons.mp hp with h | h
        · exact Or.inr (h ▸ List.mem_cons_self _ _)
        · rcases ih h with h' | h'
          · exact Or.inl h'
          · exact Or.inr (List.mem_cons_of_mem _ h')

theorem dictGet_startMap_fold (snap0 : SnapMap) (c : String) :
    ∀ (chars : List String) (m : SnapMap),
      dictGet
        (chars.foldl
          (fun m c' =>
            match dictGet snap0 c' with
            | some s => dictInsert m c' s
            | none => m)
          m) c =
      if c ∈ chars ∧ (dictGet snap0 c).isSome then dictGet snap0 c
      else dictGet m c := by
  intro chars
  induction chars with
  | nil =>
      intro m
      rw [List.foldl_nil, if_neg]
      rintro ⟨hmem, _⟩
      exact (List.not_mem_nil c) hmem
  | cons a tl ih =>
      intro m
      rw [List.foldl_cons]
      rcases hget : dictGet snap0 a with _ | s
      · show dictGet (List.foldl _ m tl) c = _
        rw [ih]
        by_cases htl : c ∈ tl ∧ (dictGet snap0 c).isSome
        · rw [if_pos htl, if_pos ⟨List.mem_cons_of_mem a htl.1, htl.2⟩]
        · rw [if_neg htl, if_neg]
          rintro ⟨hmem, hsome⟩
          rcases List.mem_cons.mp hmem with h | h
          · rw [h, hget] at hsome; exact Bool.noConfusion hsome
          · exact htl ⟨h, hsome⟩
      · show dictGet (List.foldl _ (dictInsert m a s) tl) c = _
        rw [ih]
        by_cases htl : c ∈ tl ∧ (dictGet snap0 c).isSome
        · rw [if_pos htl, if_pos ⟨List.mem_cons_of_mem a htl.1, htl.2⟩]
        · rw [if_neg htl, dictGet_dictInsert]
          by_cases hc : c = a
          · rw [if_pos hc]
            rw [if_pos ⟨List.mem_cons.mpr (Or.inl hc), by rw [hc, hget]; rfl⟩]
            rw [hc, hget]
          · rw [if_neg hc, if_neg]
            rintro ⟨hmem, hsome⟩
            rcases List.mem_cons.mp hmem with h | h
            · exact hc h
            · exact htl ⟨h, hsome⟩

theorem dictGet_startMap (characters : List String) (snap0 : SnapMap)
    (c : String) (hc : c ∈ characters) :
    dictGet (startMap characters snap0) c = dictGet snap0 c := by
  unfold startMap
  rw [dictGet_startMap_fold]
  rcases hs : dictGet snap0 c with _ | s
  · rw [if_neg]
    · rfl
    · rintro ⟨_, hsome⟩
      exact Bool.noConfusion hsome
  · rw [if_pos ⟨hc, rfl⟩]

/-! ### Claim C1 -/

/-- Claim C1: for every tracked character and pair of snapshots, the
ResultRow written for that character is in the session's rows, its gain
is present iff both snapshots contain the character, and when present it
equals exactly `end.exp_pct - start.exp_pct` (signed subtraction, not
clamped). -/
theorem gain_present_iff_both_snapshots (characters : List String)
    (snap0 snap1 : SnapMap) (c : String) (hc : c ∈ characters) :
    buildRow (startMap characters snap0) snap1 c ∈
      sessionRows characters snap0 snap1 ∧
    ((buildRow (startMap characters snap0) snap1 c).gain.isSome ↔
      (dictGet snap0 c).isSome ∧ (dictGet snap1 c).isSome) ∧
    (∀ s0 s1, dictGet snap0 c = some s0 → dictGet snap1 c = some s1 →
      (buildRow (startMap characters snap0) snap1 c).gain =
        some (s1.exp_pct - s0.exp_pct)) := by
  refine ⟨List.mem_map_of_mem _ hc, ?_, ?_⟩
  · simp only [buildRow, dictGet_startMap characters snap0 c hc]
    rcases dictGet snap0 c with _ | s0 <;> rcases dictGet snap1 c with _ | s1 <;>
      simp
  · intro s0 s1 h0 h1
    simp only [buildRow, dictGet_startMap characters snap0 c hc, h0, h1]
    rfl

/-- Start snapshot used to instantiate the C1 theorem. -/
def snapW0 : SnapMap := [("Alice", ⟨"Alice", 10, 50⟩)]

/-- End snapshot used to instantiate the C1 theorem. -/
def snapW1 : SnapMap := [("Alice", ⟨"Alice", 10, 55.25⟩)]

/-- Concrete instantiation of the C1 theorem: Alice appears in both
snapshots, so her row carries the exact gain 5.25. -/
theorem gain_present_iff_both_snapshots_witness :
    ("Alice" ∈ ["Alice"]) ∧
    (buildRow (startMap ["Alice"] snapW0) snapW1 "Alice" ∈
      sessionRows ["Alice"] snapW0 snapW1 ∧
    ((buildRow (startMap ["Alice"] snapW0) snapW1 "Alice").gain.isSome ↔
      (dictGet snapW0 "Alice").isSome ∧ (dictGet snapW1 "Alice").isSome) ∧
    (∀ s0 s1, dictGet snapW0 "Alice" = some s0 →
      dictGet snapW1 "Alice" = some s1 →
      (buildRow (startMap ["Alice"] snapW0) snapW1 "Alice").gain =
        some (s1.exp_pct - s0.exp_pct))) :=
  ⟨by simp,
   gain_present_iff_both_snapshots ["Alice"] snapW0 snapW1 "Alice" (by simp)⟩

/-! ### Claim C8 -/

theorem ratOfParts_nonneg (ds1 ds2 : List Char) : 0 ≤ ratOfParts ds1 ds2 := by
  unfold ratOfParts
  positivity

theorem matchExp_eq_some (s : String) (q : ℚ) (h : matchExp s = some q) :
    ∃ ds1 ds2, q = ratOfParts ds1 ds2 := by
  unfold matchExp at h
  rcases hp : matchExpParts s with _ | p
  · rw [hp] at h
    exact absurd h (by simp)
  · rw [hp] at h
    injection h with h'
    exact ⟨p.1, p.2, h'.symm⟩

theorem matchExp_nonneg (s : String) (q : ℚ) (h : matchExp s = some q) :
    0 ≤ q := by
  obtain ⟨ds1, ds2, hq⟩ := matchExp_eq_some s q h
  rw [hq]
  exact ratOfParts_nonneg ds1 ds2

theorem parseRowSnap_nonneg (tds : List String) (s : CharSnapshot)
    (h : parseRowSnap tds = some s) : 0 ≤ s.exp_pct := by
  simp only [parseRowSnap] at h
  split at h
  · exact absurd h (by simp)
  · split at h
    · exact absurd h (by simp)
    · rcases hl : pyInt (pyStrip (tds.getD 2 "")) with _ | lvl <;> rw [hl] at h
      · exact absurd h (by simp)
      · rcases he : matchExp (pyStrip (tds.getD 4 "")) with _ | pct <;>
          rw [he] at h
        · exact absurd h (by simp)
        · injection h with h'
          rw [← h']
          exact matchExp_nonneg _ _ he

theorem snapFold_go_nonneg (rows : List (List String)) :
    ∀ (m : SnapMap), (∀ kv ∈ m, 0 ≤ kv.2.exp_pct) →
      ∀ kv ∈ rows.foldl
        (fun m tds =>
          match parseRowSnap tds with
          | none => m
          | some s => dictInsert m s.character s)
        m, 0 ≤ kv.2.exp_pct := by
  induction rows with
  | nil => intro m hm kv hkv; exact hm kv hkv
  | cons r rs ih =>
      intro m hm kv hkv
      rw [List.foldl_cons] at hkv
      rcases hr : parseRowSnap r with _ | s
      · rw [hr] at hkv
        exact ih m hm kv hkv
      · rw [hr] at hkv
        refine ih (dictInsert m s.character s) ?_ kv hkv
        intro kv' hkv'
        rcases mem_dictInsert m s.character s kv' hkv' with h | h
        · rw [h]
          exact parseRowSnap_nonneg r s hr
        · exact hm kv' h

/-- Claim C8 (amended): every CharSnapshot produced by a successful parse
has a nonnegative experience percent; the parser guarantees neither
`level ≥ 1` nor `experience_percent < 100`. -/
theorem parse_exp_nonneg (html : Html) (m : SnapMap)
    (h : parse_netherworld html = Except.ok m) :
    ∀ kv ∈ m, (0 : ℚ) ≤ kv.2.exp_pct := by
  unfold parse_netherworld at h
  split at h
  · exact absurd h (by simp)
  · exact absurd h (by simp)
  · injection h with h'
    rw [← h']
    exact snapFold_go_nonneg _ [] (by intro kv hkv; cases hkv)

/-- A syntactically valid ranking document whose single row carries level
`0` and experience `150%`; the parser accepts it. -/
def badHtml : Html :=
  [⟨"Netherworld", some [["", "x", "0", "", "150%", ""]]⟩]

/-- Claim C8 counterexample: the parser returns a snapshot with level 0
(violating `level ≥ 1`) and experience percent 150 (violating `< 100`). -/
theorem parse_bounds_cex :
    ∃ m, parse_netherworld badHtml = Except.ok m ∧
      ¬(∀ kv ∈ m, 1 ≤ kv.2.level ∧ 0 ≤ kv.2.exp_pct ∧ kv.2.exp_pct < 100) ∧
      ∃ kv ∈ m, kv.2.level < 1 ∧ 100 ≤ kv.2.exp_pct := by
  refine ⟨[("x", ⟨"x", 0, ratOfParts ['1', '5', '0'] []⟩)], rfl, ?_, ?_⟩
  · intro h
    have hx := h _ (List.mem_singleton.mpr rfl)
    exact absurd hx.1 (by decide)
  · refine ⟨_, List.mem_singleton.mpr rfl, by decide, ?_⟩
    have h1 : digitsVal ['1', '5', '0'] = 150 := by decide
    have h0 : digitsVal ([] : List Char) = 0 := rfl
    show (100 : ℚ) ≤ ratOfParts ['1', '5', '0'] []
    unfold ratOfParts
    rw [h1, h0]
    norm_num

/-- Concrete instantiation of the amended C8 theorem on `badHtml`. -/
theorem parse_exp_nonneg_witness :
    parse_netherworld badHtml =
      Except.ok [("x", ⟨"x", 0, ratOfParts ['1', '5', '0'] []⟩)] ∧
    ∀ kv ∈ [("x", (⟨"x", 0, ratOfParts ['1', '5', '0'] []⟩ : CharSnapshot))],
      (0 : ℚ) ≤ kv.2.exp_pct :=
  ⟨rfl, parse_exp_nonneg badHtml _ rfl⟩

/-! ### Claim C7 -/

theorem fetchAux_stop {E A : Type} (att : Nat → Except E A)
    (retries backoff a : Nat) (l : Option E) (h : retries < a) :
    fetchAux att retries backoff a l = ⟨[], 0, .error l⟩ := by
  unfold fetchAux
  rw [if_pos h]

theorem fetchAux_ok {E A : Type} (att : Nat → Except E A)
    (retries backoff a : Nat) (l : Option E) (v : A)
    (h : ¬retries < a) (hv : att a = .ok v) :
    fetchAux att retries backoff a l = ⟨[], 1, .ok v⟩ := by
  unfold fetchAux
  rw [if_neg h, hv]

theorem fetchAux_err {E A : Type} (att : Nat → Except E A)
    (retries backoff a : Nat) (l : Option E) (e : E)
    (h : ¬retries < a) (he : att a = .error e) :
    fetchAux att retries backoff a l =
      ⟨(if a < retries then [backoff * a] else []) ++
        (fetchAux att retries backoff (a + 1) (some e)).sleeps,
       1 + (fetchAux att retries backoff (a + 1) (some e)).attempts,
       (fetchAux att retries backoff (a + 1) (some e)).result⟩ := by
  conv_lhs => unfold fetchAux
  rw [if_neg h, he]

theorem fetchAux_attempts_le {E A : Type} (att : Nat → Except E A)
    (retries backoff : Nat) :
    ∀ n a l, retries + 1 - a ≤ n →
      (fetchAux att retries backoff a l).attempts ≤ retries + 1 - a := by
  intro n
  induction n with
  | zero =>
      intro a l h
      rw [fetchAux_stop att retries backoff a l (by omega)]
      exact Nat.zero_le _
  | succ n ih =>
      intro a l h
      by_cases hlt : retries < a
      · rw [fetchAux_stop att retries backoff a l hlt]
        exact Nat.zero_le _
      · rcases hv : att a with e | v
        · rw [fetchAux_err att retries backoff a l e hlt hv]
          have := ih (a + 1) (some e) (by omega)
          show 1 + (fetchAux att retries backoff (a + 1) (some e)).attempts ≤ _
          omega
        · rw [fetchAux_ok att retries backoff a l v hlt hv]
          show 1 ≤ retries + 1 - a
          omega

theorem fetchAux_first_success {E A : Type} (att : Nat → Except E A)
    (retries backoff : Nat) :
    ∀ d a l v k, k = a + d → att k = .ok v → k ≤ retries →
      (∀ j, a ≤ j → j < k → ∃ e, att j = .error e) →
      fetchAux att retries backoff a l =
        ⟨(List.range' a d).map (fun i => backoff * i), d + 1, .ok v⟩ := by
  intro d
  induction d with
  | zero =>
      intro a l v k hk hv hle _
      have hva : att a = Except.ok v := by
        have ha : a = k := by omega
        rw [ha]; exact hv
      rw [fetchAux_ok att retries backoff a l v (by omega) hva]
      rfl
  | succ d ih =>
      intro a l v k hk hv hle hprior
      obtain ⟨e, he⟩ := hprior a le_rfl (by omega)
      rw [fetchAux_err att retries backoff a l e (by omega) he]
      rw [ih (a + 1) (some e) v k (by omega) hv hle
        (fun j hj hjk => hprior j (by omega) hjk)]
      dsimp only
      rw [if_pos (by omega : a < retries)]
      simp only [FetchRun.mk.injEq]
      refine ⟨?_, by omega, trivial⟩
      rw [List.singleton_append,
        show List.range' a (d + 1) = a :: List.range' (a + 1) d from rfl,
        List.map_cons]

theorem fetchAux_all_fail {E A : Type} (att : Nat → Except E A)
    (retries backoff : Nat) :
    ∀ d a l, a + d = retries →
      (∀ j, a ≤ j → j ≤ retries → ∃ e, att j = .error e) →
      ∃ e, att retries = .error e ∧
        fetchAux att retries backoff a l =
          ⟨(List.range' a d).map (fun i => backoff * i), d + 1,
           .error (some e)⟩ := by
  intro d
  induction d with
  | zero =>
      intro a l hk hfail
      obtain ⟨e, he⟩ := hfail a le_rfl (by omega)
      refine ⟨e, by rw [← hk, Nat.add_zero]; exact he, ?_⟩
      rw [fetchAux_err att retries backoff a l e (by omega) he]
      rw [fetchAux_stop att retries backoff (a + 1) (some e) (by omega)]
      rw [if_neg (by omega : ¬a < retries)]
      rfl
  | succ d ih =>
      intro a l hk hfail
      obtain ⟨e0, he0⟩ := hfail a le_rfl (by omega)
      obtain ⟨e, hret, heq⟩ := ih (a + 1) (some e0) (by omega)
        (fun j hj hjr => hfail j (by omega) hjr)
      refine ⟨e, hret, ?_⟩
      rw [fetchAux_err att retries backoff a l e0 (by omega) he0, heq]
      dsimp only
      rw [if_pos (by omega : a < retries)]
      simp only [FetchRun.mk.injEq]
      refine ⟨?_, by omega, trivial⟩
      rw [List.singleton_append,
        show List.range' a (d + 1) = a :: List.range' (a + 1) d from rfl,
        List.map_cons]

/-- Claim C7: the fetcher makes at most `retries` attempts; if the first
success is at attempt `k` it returns that body after exactly `k`
attempts, having slept `backoff·1, …, backoff·(k−1)` between attempts
(none after the last); if every attempt fails it makes exactly `retries`
attempts, sleeps `backoff·1, …, backoff·(retries−1)`, and re-raises the
last failure. -/
theorem fetch_retry_spec {E A : Type} (att : Nat → Except E A)
    (retries backoff : Nat) (hr : 1 ≤ retries) :
    (fetch_html_with_retries att retries backoff).attempts ≤ retries ∧
    (∀ k v, 1 ≤ k → k ≤ retries → att k = Except.ok v →
      (∀ j, 1 ≤ j → j < k → ∃ e, att j = Except.error e) →
      fetch_html_with_retries att retries backoff =
        ⟨(List.range' 1 (k - 1)).map (fun i => backoff * i), k,
         Except.ok v⟩) ∧
    ((∀ j, 1 ≤ j → j ≤ retries → ∃ e, att j = Except.error e) →
      ∃ e, att retries = Except.error e ∧
        fetch_html_with_retries att retries backoff =
          ⟨(List.range' 1 (retries - 1)).map (fun i => backoff * i), retries,
           Except.error (some e)⟩) := by
  refine ⟨?_, ?_, ?_⟩
  · have := fetchAux_attempts_le att retries backoff (retries + 1 - 1) 1 none
      (by omega)
    unfold fetch_html_with_retries
    omega
  · intro k v hk1 hkr hv hprior
    unfold fetch_html_with_retries
    rw [fetchAux_first_success att retries backoff (k - 1) 1 none v k
      (by omega) hv hkr (fun j hj hjk => hprior j hj hjk)]
    congr 1
    omega
  · intro hfail
    unfold fetch_html_with_retries
    obtain ⟨e, hret, heq⟩ := fetchAux_all_fail att retries backoff
      (retries - 1) 1 none (by omega) (fun j hj hjr => hfail j hj hjr)
    refine ⟨e, hret, ?_⟩
    rw [heq]
    congr 1
    omega

/-- Attempt outcomes used to instantiate the C7 theorem: the first
attempt fails, the second succeeds. -/
def fetchAtt0 : Nat → Except String String :=
  fun i => if i = 2 then .ok "body" else .error "timeout"

/-- Concrete instantiation of the C7 theorem at `retries = 3`,
`backoff = 3`. -/
theorem fetch_retry_spec_witness :
    (1 ≤ 3) ∧
    ((fetch_html_with_retries fetchAtt0 3 3).attempts ≤ 3 ∧
    (∀ k v, 1 ≤ k → k ≤ 3 → fetchAtt0 k = Except.ok v →
      (∀ j, 1 ≤ j → j < k → ∃ e, fetchAtt0 j = Except.error e) →
      fetch_html_with_retries fetchAtt0 3 3 =
        ⟨(List.range' 1 (k - 1)).map (fun i => 3 * i), k, Except.ok v⟩) ∧
    ((∀ j, 1 ≤ j → j ≤ 3 → ∃ e, fetchAtt0 j = Except.error e) →
      ∃ e, fetchAtt0 3 = Except.error e ∧
        fetch_html_with_retries fetchAtt0 3 3 =
          ⟨(List.range' 1 (3 - 1)).map (fun i => 3 * i), 3,
           Except.error (some e)⟩)) :=
  ⟨by decide, fetch_retry_spec fetchAtt0 3 3 (by decide)⟩

/-! ### Orchestrator trace helpers -/

/-- Is the effect a SessionRecord append? -/
def isAppendRun : Eff → Bool
  | .appendRun _ _ => true
  | _ => false

/-- Is the effect a ResultRow append? -/
def isAppendResults : Eff → Bool
  | .appendResults _ _ => true
  | _ => false

/-- Is the effect an ErrorEvent for character `c`? -/
def isErrorFor (c : String) : Eff → Bool
  | .writeError _ ch _ => ch == c
  | _ => false

/-- Number of ErrorEvents recorded for character `c` in a trace. -/
def errEventCount (c : String) (tr : List Eff) : Nat :=
  (tr.filter (isErrorFor c)).length

/-- The timestamp a lock-marker content carries in its second
`|`-separated field, when one is present and parseable. -/
def isoTimestampOf (isoParse : String → Option Int) (content : String) :
    Option Int :=
  match ((splitOnChar '|' (pyStrip content).data).map String.mk).get? 1 with
  | none => none
  | some p => isoParse p

theorem lockTsOld_of_isoTimestamp (isoParse : String → Option Int)
    (startedAt : Int) (content : String) (t : Int)
    (h : isoTimestampOf isoParse content = some t) :
    lockTsOld isoParse startedAt content = t := by
  unfold isoTimestampOf at h
  unfold lockTsOld
  dsimp only
  rcases hp : ((splitOnChar '|' (pyStrip content).data).map String.mk).get? 1
    with _ | p
  · simp only [hp] at h
    exact Option.noConfusion h
  · simp only [hp] at h
    rcases hi : isoParse p with _ | t'
    · rw [hi] at h
      exact Option.noConfusion h
    · rw [hi] at h
      injection h with h'
      dsimp only
      rw [hi]
      dsimp only
      exact h'

theorem runMain_refused (env : Env) (cs : List String)
    (hv : validate_dungeon env.dungeonsJson env.dungeonArg env.stageArg
      env.difficultyArg = Except.ok ())
    (hc : read_characters env.charactersLines = Except.ok cs)
    (hl : lockProceeds env.isoParse env.startedAt env.marker = false) :
    runMain env = ([Eff.ensureFiles], Outcome.exit 1) := by
  unfold runMain
  rw [hv, hc, hl]
  rfl

theorem runMain_ok_trace (env : Env) (cs : List String)
    (hv : validate_dungeon env.dungeonsJson env.dungeonArg env.stageArg
      env.difficultyArg = Except.ok ())
    (hc : read_characters env.charactersLines = Except.ok cs)
    (hl : lockProceeds env.isoParse env.startedAt env.marker = true)
    (hb : (sessionBody env cs).2 = Except.ok ()) :
    runMain env =
      (([Eff.ensureFiles] ++ [Eff.writeLock (env.runId ++ "|" ++ env.startedIso)]) ++
        ((sessionBody env cs).1 ++ [Eff.unlinkLock (!env.unlinkFails)]),
       Outcome.exit 0) := by
  unfold runMain
  rw [hv, hc, hl]
  dsimp only
  rw [hb]
  rfl

theorem runMain_err_trace (env : Env) (cs : List String) (e : String)
    (hv : validate_dungeon env.dungeonsJson env.dungeonArg env.stageArg
      env.difficultyArg = Except.ok ())
    (hc : read_characters env.charactersLines = Except.ok cs)
    (hl : lockProceeds env.isoParse env.startedAt env.marker = true)
    (hb : (sessionBody env cs).2 = Except.error e) :
    runMain env =
      (([Eff.ensureFiles] ++ [Eff.writeLock (env.runId ++ "|" ++ env.startedIso)]) ++
        ((sessionBody env cs).1 ++
          [Eff.appendRun env.runId ("Fehler " ++ e),
           Eff.unlinkLock (!env.unlinkFails)]),
       Outcome.exit 2) := by
  unfold runMain
  rw [hv, hc, hl]
  dsimp only
  rw [hb]
  rfl

/-! ### Concrete environments for instantiations -/

/-- A dungeons.json payload with one dungeon of 3 stages. -/
def dungeonsCfg0 : DungeonsCfg := [("katakomben", ⟨3, ["normal", "hell"]⟩)]

/-- A base environment: a valid configuration, no lock marker, both
fetches failing after retry exhaustion. -/
def env0 : Env :=
  { startedAt := 10000
    runId := "R20250101_120000"
    startedIso := "2025-01-01T12:00:00+01:00"
    note := ""
    sleepSeconds := 3600
    marker := none
    isoParse := fun _ => none
    dungeonsJson := some dungeonsCfg0
    dungeonArg := "Katakomben"
    stageArg := 2
    difficultyArg := "Hell"
    charactersLines := some ["Alice", "Bob"]
    fetch1 := Except.error "Timeout"
    fetch2 := Except.error "Timeout"
    unlinkFails := false }

/-! ### Claim C10 -/

/-- Claim C10: with `config/dungeons.json` absent, the invocation raises
the file-not-found error before the lock is taken: the only effect is the
header setup, so no lock marker is written and no records are appended. -/
theorem dungeons_missing_fatal (env : Env) (h : env.dungeonsJson = none) :
    runMain env = ([Eff.ensureFiles], Outcome.raised "config/dungeons.json fehlt") := by
  unfold runMain
  rw [show validate_dungeon env.dungeonsJson env.dungeonArg env.stageArg
      env.difficultyArg = Except.error "config/dungeons.json fehlt" from by
    rw [h]; rfl]

/-- The base environment with the dungeon catalog removed. -/
def envNoDungeons : Env := { env0 with dungeonsJson := none }

/-- Concrete instantiation of the C10 theorem. -/
theorem dungeons_missing_fatal_witness :
    envNoDungeons.dungeonsJson = none ∧
    runMain envNoDungeons =
      ([Eff.ensureFiles], Outcome.raised "config/dungeons.json fehlt") :=
  ⟨rfl, dungeons_missing_fatal envNoDungeons rfl⟩

/-! ### Claim C9 -/

/-- Claim C9 (code bug): the errors.csv header declares the four columns
`run_id, character, timestamp, error_message`, but `write_error` appends
a three-field row whose second field is the timestamp and whose third
field fuses the character and the message. -/
theorem error_row_shape :
    errorsHeader = ["run_id", "character", "timestamp", "error_message"] ∧
    write_error_row "R20250101_120000" "2025-01-01 12 Uhr 00" "Alice"
        "Kein Startwert" =
      ["R20250101_120000", "2025-01-01 12 Uhr 00",
       "Alice Fehler Kein Startwert"] ∧
    (write_error_row "R20250101_120000" "2025-01-01 12 Uhr 00" "Alice"
        "Kein Startwert").length = 3 ∧
    errorsHeader.length = 4 := by
  refine ⟨rfl, ?_, rfl, rfl⟩
  decide

/-! ### Claim C3 -/

/-- Claim C3: lock acquisition proceeds iff no marker exists or the
marker's age is at least 90 minutes. With no marker the session writes
the new marker; with a fresh marker (age < 5400 s) it exits with code 1
having performed no lock write and no record writes; with a stale marker
(age ≥ 5400 s) it proceeds and writes the new marker content
`run_id|started_iso`. -/
theorem lock_gate_spec (env : Env) (cs : List String)
    (hv : validate_dungeon env.dungeonsJson env.dungeonArg env.stageArg
      env.difficultyArg = Except.ok ())
    (hc : read_characters env.charactersLines = Except.ok cs) :
    (env.marker = none →
      Eff.writeLock (env.runId ++ "|" ++ env.startedIso) ∈ (runMain env).1) ∧
    (∀ content t, env.marker = some content →
      isoTimestampOf env.isoParse content = some t →
      ((env.startedAt - t < 5400 →
          runMain env = ([Eff.ensureFiles], Outcome.exit 1)) ∧
       (5400 ≤ env.startedAt - t →
          Eff.writeLock (env.runId ++ "|" ++ env.startedIso) ∈
            (runMain env).1))) := by
  have proceedMem :
      lockProceeds env.isoParse env.startedAt env.marker = true →
      Eff.writeLock (env.runId ++ "|" ++ env.startedIso) ∈ (runMain env).1 := by
    intro hl
    rcases hb : (sessionBody env cs).2 with e | u
    · rw [runMain_err_trace env cs e hv hc hl hb]
      simp
    · rw [runMain_ok_trace env cs hv hc hl (by rw [hb])]
      simp
  constructor
  · intro hm
    refine proceedMem ?_
    unfold lockProceeds
    rw [hm]
  · intro content t hm hts
    have htsOld : lockTsOld env.isoParse env.startedAt content = t :=
      lockTsOld_of_isoTimestamp env.isoParse env.startedAt content t hts
    constructor
    · intro hfresh
      refine runMain_refused env cs hv hc ?_
      unfold lockProceeds
      rw [hm]
      dsimp only
      rw [htsOld]
      rw [decide_eq_true hfresh]
      rfl
    · intro hstale
      refine proceedMem ?_
      unfold lockProceeds
      rw [hm]
      dsimp only
      rw [htsOld]
      rw [decide_eq_false (by omega : ¬env.startedAt - t < 5400)]
      rfl

/-- Environment with a stale, well-formed lock marker: its timestamp
parses to 0 while the session starts at t = 10000 (age ≥ 5400 s). -/
def envStaleLock : Env :=
  { env0 with
    marker := some "R20250101_000000|T0"
    isoParse := fun s => if s = "T0" then some 0 else none }

/-- Concrete instantiation of the C3 theorem on a stale marker. -/
theorem lock_gate_spec_witness :
    (validate_dungeon envStaleLock.dungeonsJson envStaleLock.dungeonArg
      envStaleLock.stageArg envStaleLock.difficultyArg = Except.ok ()) ∧
    (read_characters envStaleLock.charactersLines =
      Except.ok ["Alice", "Bob"]) ∧
    ((envStaleLock.marker = none →
      Eff.writeLock (envStaleLock.runId ++ "|" ++ envStaleLock.startedIso) ∈
        (runMain envStaleLock).1) ∧
    (∀ content t, envStaleLock.marker = some content →
      isoTimestampOf envStaleLock.isoParse content = some t →
      ((envStaleLock.startedAt - t < 5400 →
          runMain envStaleLock = ([Eff.ensureFiles], Outcome.exit 1)) ∧
       (5400 ≤ envStaleLock.startedAt - t →
          Eff.writeLock (envStaleLock.runId ++ "|" ++ envStaleLock.startedIso) ∈
            (runMain envStaleLock).1)))) :=
  ⟨rfl, rfl, lock_gate_spec envStaleLock ["Alice", "Bob"] rfl rfl⟩

/-! ### Claim C6 -/

/-- Claim C6 counterexample: the lock marker `"R0"` is malformed — no
timestamp can be extracted from it — yet the session does NOT proceed: it
refuses with exit code 1 (AlreadyRunning) and writes nothing. -/
theorem lock_malformed_cex :
    isoTimestampOf env0.isoParse "R0" = none ∧
    runMain { env0 with marker := some "R0" } =
      ([Eff.ensureFiles], Outcome.exit 1) := by
  constructor
  · rfl
  · exact runMain_refused { env0 with marker := some "R0" } ["Alice", "Bob"]
      rfl rfl rfl

/-- Claim C6 (amended): a malformed marker that still has a second
`|`-separated field is treated as very stale (two hours old), so the
session proceeds and overwrites the marker; a malformed marker with no
second field at all is treated as acquired just now, so the session
refuses with AlreadyRunning. -/
theorem lock_malformed_spec (env : Env) (cs : List String) (content : String)
    (hv : validate_dungeon env.dungeonsJson env.dungeonArg env.stageArg
      env.difficultyArg = Except.ok ())
    (hc : read_characters env.charactersLines = Except.ok cs)
    (hm : env.marker = some content) :
    (∀ p, ((splitOnChar '|' (pyStrip content).data).map String.mk).get? 1 =
        some p →
      env.isoParse p = none →
      Eff.writeLock (env.runId ++ "|" ++ env.startedIso) ∈ (runMain env).1) ∧
    (((splitOnChar '|' (pyStrip content).data).map String.mk).get? 1 = none →
      runMain env = ([Eff.ensureFiles], Outcome.exit 1)) := by
  constructor
  · intro p hp hbad
    have htsOld : lockTsOld env.isoParse env.startedAt content =
        env.startedAt - 7200 := by
      unfold lockTsOld
      dsimp only
      rw [hp]
      dsimp only
      rw [hbad]
    have hl : lockProceeds env.isoParse env.startedAt env.marker = true := by
      unfold lockProceeds
      rw [hm]
      dsimp only
      rw [htsOld]
      rw [decide_eq_false (by omega :
        ¬env.startedAt - (env.startedAt - 7200) < 5400)]
      rfl
    rcases hb : (sessionBody env cs).2 with e | u
    · rw [runMain_err_trace env cs e hv hc hl hb]
      simp
    · rw [runMain_ok_trace env cs hv hc hl (by rw [hb])]
      simp
  · intro hp
    refine runMain_refused env cs hv hc ?_
    have htsOld : lockTsOld env.isoParse env.startedAt content =
        env.startedAt := by
      unfold lockTsOld
      dsimp only
      rw [hp]
    unfold lockProceeds
    rw [hm]
    dsimp only
    rw [htsOld]
    rw [decide_eq_true (by omega :
      env.startedAt - env.startedAt < 5400)]
    rfl

/-- Environment whose lock marker has a timestamp field that fails to
parse. -/
def envBadIsoLock : Env := { env0 with marker := some "R9|garbage" }

/-- Concrete instantiation of the amended C6 theorem. -/
theorem lock_malformed_spec_witness :
    (validate_dungeon envBadIsoLock.dungeonsJson envBadIsoLock.dungeonArg
      envBadIsoLock.stageArg envBadIsoLock.difficultyArg = Except.ok ()) ∧
    (read_characters envBadIsoLock.charactersLines =
      Except.ok ["Alice", "Bob"]) ∧
    envBadIsoLock.marker = some "R9|garbage" ∧
    ((∀ p, ((splitOnChar '|' (pyStrip "R9|garbage").data).map String.mk).get? 1 =
        some p →
      envBadIsoLock.isoParse p = none →
      Eff.writeLock (envBadIsoLock.runId ++ "|" ++ envBadIsoLock.startedIso) ∈
        (runMain envBadIsoLock).1) ∧
    (((splitOnChar '|' (pyStrip "R9|garbage").data).map String.mk).get? 1 =
        none →
      runMain envBadIsoLock = ([Eff.ensureFiles], Outcome.exit 1))) :=
  ⟨rfl, rfl, rfl,
   lock_malformed_spec envBadIsoLock ["Alice", "Bob"] "R9|garbage" rfl rfl rfl⟩

/-! ### Claim C5 -/

theorem sessionBody_indep_unlink (env : Env) (b : Bool) (cs : List String) :
    sessionBody { env with unlinkFails := b } cs = sessionBody env cs := by
  unfold sessionBody
  rfl

theorem runMain_cases (env : Env) :
    (runMain env).1 = [Eff.ensureFiles] ∨
    ∃ mid, (runMain env).1 =
      ([Eff.ensureFiles] ++
        [Eff.writeLock (env.runId ++ "|" ++ env.startedIso)]) ++
      (mid ++ [Eff.unlinkLock (!env.unlinkFails)]) := by
  unfold runMain
  dsimp only
  split
  · exact Or.inl rfl
  · split
    · exact Or.inl rfl
    · rename_i cs heq
      split
      · exact Or.inl rfl
      · split
        · exact Or.inr ⟨(sessionBody env cs).1, rfl⟩
        · rename_i e hb
          refine Or.inr ⟨(sessionBody env cs).1 ++
            [Eff.appendRun env.runId ("Fehler " ++ e)], ?_⟩
          simp

theorem runMain_outcome_indep_unlink (env : Env) (b : Bool) :
    (runMain { env with unlinkFails := b }).2 = (runMain env).2 := by
  unfold runMain
  dsimp only
  simp only [sessionBody_indep_unlink]
  repeat' split
  all_goals rfl

/-- Claim C5: once the lock has been written, every way the session
concludes ends the trace with the best-effort lock deletion, and whether
that deletion fails never changes the process outcome. -/
theorem lock_cleanup_spec (env : Env)
    (h : Eff.writeLock (env.runId ++ "|" ++ env.startedIso) ∈ (runMain env).1) :
    ((runMain env).1.getLast? = some (Eff.unlinkLock (!env.unlinkFails))) ∧
    ∀ b : Bool, (runMain { env with unlinkFails := b }).2 = (runMain env).2 := by
  constructor
  · rcases runMain_cases env with hcase | ⟨mid, hcase⟩
    · rw [hcase] at h
      simp at h
    · rw [hcase]
      rw [show ([Eff.ensureFiles] ++
          [Eff.writeLock (env.runId ++ "|" ++ env.startedIso)]) ++
          (mid ++ [Eff.unlinkLock (!env.unlinkFails)]) =
          (([Eff.ensureFiles] ++
            [Eff.writeLock (env.runId ++ "|" ++ env.startedIso)]) ++ mid) ++
          [Eff.unlinkLock (!env.unlinkFails)] from by simp]
      exact List.getLast?_concat _
  · intro b
    exact runMain_outcome_indep_unlink env b

/-- Concrete instantiation of the C5 theorem on `env0` (the session
acquires the lock and then fails on the first fetch). -/
theorem lock_cleanup_spec_witness :
    (Eff.writeLock (env0.runId ++ "|" ++ env0.startedIso) ∈ (runMain env0).1) ∧
    (((runMain env0).1.getLast? = some (Eff.unlinkLock (!env0.unlinkFails))) ∧
     ∀ b : Bool, (runMain { env0 with unlinkFails := b }).2 = (runMain env0).2) :=
  ⟨by decide, lock_cleanup_spec env0 (by decide)⟩

/-! ### Claim C2 -/

theorem filter_writeError_map_none (p : Eff → Bool)
    (hp : ∀ r c m, p (Eff.writeError r c m) = false)
    (rid : String) (l : List (String × String)) :
    (l.map (fun q => Eff.writeError rid q.1 q.2)).filter p = [] := by
  induction l with
  | nil => rfl
  | cons a tl ih =>
      rw [List.map_cons, List.filter_cons]
      rw [hp rid a.1 a.2]
      simpa using ih

theorem sessionBody_error_no_appends (env : Env) (cs : List String) (e : String)
    (hb : (sessionBody env cs).2 = Except.error e) :
    (sessionBody env cs).1.filter isAppendRun = [] ∧
    (sessionBody env cs).1.filter isAppendResults = [] := by
  have hrun : ∀ r c m, isAppendRun (Eff.writeError r c m) = false :=
    fun _ _ _ => rfl
  have hres : ∀ r c m, isAppendResults (Eff.writeError r c m) = false :=
    fun _ _ _ => rfl
  unfold sessionBody at hb ⊢
  rcases hf1 : env.fetch1 with e1 | h1 <;> dsimp only at hb ⊢
  · exact ⟨rfl, rfl⟩
  · rcases hp1 : parse_netherworld h1 with e1 | snap0 <;> dsimp only at hb ⊢
    · exact ⟨rfl, rfl⟩
    · rcases hf2 : env.fetch2 with e2 | h2 <;> dsimp only at hb ⊢
      · refine ⟨?_, ?_⟩
        · rw [List.filter_append,
            filter_writeError_map_none isAppendRun hrun env.runId _,
            List.nil_append]
          rfl
        · rw [List.filter_append,
            filter_writeError_map_none isAppendResults hres env.runId _,
            List.nil_append]
          rfl
      · rcases hp2 : parse_netherworld h2 with e2 | snap1 <;> dsimp only at hb ⊢
        · refine ⟨?_, ?_⟩
          · rw [List.filter_append,
              filter_writeError_map_none isAppendRun hrun env.runId _,
              List.nil_append]
            rfl
          · rw [List.filter_append,
              filter_writeError_map_none isAppendResults hres env.runId _,
              List.nil_append]
            rfl
        · simp [hf1, hp1, hf2, hp2] at hb

/-- Claim C2: a failure raised mid-session (after the lock was taken)
appends exactly one SessionRecord, whose note embeds the error text,
appends zero ResultRows, and re-signals the failure via exit code 2
after the record is persisted. -/
theorem midsession_failure_spec (env : Env) (cs : List String) (e : String)
    (hv : validate_dungeon env.dungeonsJson env.dungeonArg env.stageArg
      env.difficultyArg = Except.ok ())
    (hc : read_characters env.charactersLines = Except.ok cs)
    (hl : lockProceeds env.isoParse env.startedAt env.marker = true)
    (hb : (sessionBody env cs).2 = Except.error e) :
    (runMain env).1.filter isAppendRun =
      [Eff.appendRun env.runId ("Fehler " ++ e)] ∧
    (runMain env).1.filter isAppendResults = [] ∧
    (runMain env).2 = Outcome.exit 2 := by
  obtain ⟨hb1, hb2⟩ := sessionBody_error_no_appends env cs e hb
  rw [runMain_err_trace env cs e hv hc hl hb]
  refine ⟨?_, ?_, rfl⟩
  · simp only [List.filter_append, hb1]
    rfl
  · simp only [List.filter_append, hb2]
    rfl

/-- Concrete instantiation of the C2 theorem: on `env0` the first fetch
exhausts its retries with a "Timeout" failure. -/
theorem midsession_failure_spec_witness :
    ((sessionBody env0 ["Alice", "Bob"]).2 = Except.error "Timeout") ∧
    ((runMain env0).1.filter isAppendRun =
      [Eff.appendRun env0.runId ("Fehler " ++ "Timeout")] ∧
     (runMain env0).1.filter isAppendResults = [] ∧
     (runMain env0).2 = Outcome.exit 2) :=
  ⟨rfl, midsession_failure_spec env0 ["Alice", "Bob"] "Timeout" rfl rfl rfl rfl⟩

/-! ### Claim C4 -/

/-- Error events for character `c` among a list of (character, message)
pairs. -/
def pairCountFor (c : String) (l : List (String × String)) : Nat :=
  (l.filter (fun q => q.1 == c)).length

theorem pairCountFor_append (c : String) (l1 l2 : List (String × String)) :
    pairCountFor c (l1 ++ l2) = pairCountFor c l1 + pairCountFor c l2 := by
  simp [pairCountFor, List.filter_append]

theorem pairCountFor_single (c a msg : String) :
    pairCountFor c [(a, msg)] = if a = c then 1 else 0 := by
  by_cases h : a = c <;> simp [pairCountFor, h]

theorem sampleErrors_cons (a : String) (tl : List String) (snap0 : SnapMap) :
    sampleErrors (a :: tl) snap0 =
      (if (dictGet snap0 a).isSome then []
       else [(a, "Name beim ersten Abruf nicht gefunden")]) ++
      sampleErrors tl snap0 := by
  rw [sampleErrors, List.filterMap_cons]
  rcases dictGet snap0 a with _ | sa
  · rfl
  · rfl

theorem reconErrors_cons (a : String) (tl : List String) (sm snap1 : SnapMap) :
    reconErrors (a :: tl) sm snap1 =
      ((if (dictGet sm a).isSome then [] else [(a, "Kein Startwert")]) ++
       (if (dictGet snap1 a).isSome then [] else [(a, "Kein Endwert")])) ++
      reconErrors tl sm snap1 := rfl

theorem sampleErrors_count (snap0 : SnapMap) (c : String) :
    ∀ cs : List String,
      pairCountFor c (sampleErrors cs snap0) =
        if dictGet snap0 c = none then cs.count c else 0 := by
  intro cs
  induction cs with
  | nil => simp [sampleErrors, pairCountFor]
  | cons a tl ih =>
      rw [sampleErrors_cons, pairCountFor_append, ih, List.count_cons]
      by_cases hac : a = c
      · subst hac
        rcases hga : dictGet snap0 a with _ | sa
        · simp [pairCountFor_single]
          omega
        · simp [pairCountFor, hga]
      · rcases hga : dictGet snap0 a with _ | sa
        · simp [pairCountFor_single, hac, beq_iff_eq]
        · simp [pairCountFor, hac, beq_iff_eq]

theorem reconErrors_count (sm snap1 : SnapMap) (c : String) :
    ∀ cs : List String,
      pairCountFor c (reconErrors cs sm snap1) =
        cs.count c * ((if dictGet sm c = none then 1 else 0) +
          (if dictGet snap1 c = none then 1 else 0)) := by
  intro cs
  induction cs with
  | nil => simp [reconErrors, pairCountFor]
  | cons a tl ih =>
      rw [reconErrors_cons, pairCountFor_append, pairCountFor_append, ih,
        List.count_cons]
      by_cases hac : a = c
      · subst hac
        rcases hg1 : dictGet sm a with _ | s1 <;>
          rcases hg2 : dictGet snap1 a with _ | s2 <;>
            simp [pairCountFor_single, pairCountFor] <;> ring
      · rcases hg1 : dictGet sm a with _ | s1 <;>
          rcases hg2 : dictGet snap1 a with _ | s2 <;>
            simp [pairCountFor_single, pairCountFor, hac, beq_iff_eq]

theorem filter_isErrorFor_map (c rid : String) (l : List (String × String)) :
    (l.map (fun q => Eff.writeError rid q.1 q.2)).filter (isErrorFor c) =
      (l.filter (fun q => q.1 == c)).map
        (fun q => Eff.writeError rid q.1 q.2) := by
  induction l with
  | nil => rfl
  | cons a tl ih =>
      rw [List.map_cons, List.filter_cons, List.filter_cons,
        show isErrorFor c (Eff.writeError rid a.1 a.2) = (a.1 == c) from rfl]
      cases hac : (a.1 == c)
      · simp [hac, ih]
      · simp [hac, ih]

theorem sessionBody_ok_shape (env : Env) (cs : List String)
    (html1 html2 : Html) (snap0 snap1 : SnapMap)
    (hf1 : env.fetch1 = Except.ok html1)
    (hp1 : parse_netherworld html1 = Except.ok snap0)
    (hf2 : env.fetch2 = Except.ok html2)
    (hp2 : parse_netherworld html2 = Except.ok snap1) :
    sessionBody env cs =
      ((((sampleErrors cs snap0).map (fun p => Eff.writeError env.runId p.1 p.2) ++
         [Eff.sleep (max 1 env.sleepSeconds)]) ++
        (reconErrors cs (startMap cs snap0) snap1).map
          (fun p => Eff.writeError env.runId p.1 p.2)) ++
       [Eff.appendResults env.runId (sessionRows cs snap0 snap1),
        Eff.appendRun env.runId env.note],
       Except.ok ()) := by
  unfold sessionBody
  rw [hf1]
  dsimp only
  rw [hp1]
  dsimp only
  rw [hf2]
  dsimp only
  rw [hp2]

/-- Claim C4 (amended): over a completed two-sample session, a tracked
character missing only at the first sample receives exactly TWO
ErrorEvents (one during the first sampling, one "Kein Startwert" during
reconciliation), while a character missing only at the second sample
receives exactly one ("Kein Endwert"). -/
theorem missing_side_error_count (env : Env) (cs : List String) (c : String)
    (html1 html2 : Html) (snap0 snap1 : SnapMap)
    (hv : validate_dungeon env.dungeonsJson env.dungeonArg env.stageArg
      env.difficultyArg = Except.ok ())
    (hc : read_characters env.charactersLines = Except.ok cs)
    (hl : lockProceeds env.isoParse env.startedAt env.marker = true)
    (hf1 : env.fetch1 = Except.ok html1)
    (hp1 : parse_netherworld html1 = Except.ok snap0)
    (hf2 : env.fetch2 = Except.ok html2)
    (hp2 : parse_netherworld html2 = Except.ok snap1)
    (hcount : cs.count c = 1) :
    (dictGet snap0 c = none → (dictGet snap1 c).isSome →
      errEventCount c (runMain env).1 = 2) ∧
    ((dictGet snap0 c).isSome → dictGet snap1 c = none →
      errEventCount c (runMain env).1 = 1) := by
  have hmem : c ∈ cs := by
    by_contra hcon
    rw [List.count_eq_zero_of_not_mem hcon] at hcount
    exact Nat.noConfusion hcount
  have hgetsm : dictGet (startMap cs snap0) c = dictGet snap0 c :=
    dictGet_startMap cs snap0 c hmem
  have hok : (sessionBody env cs).2 = Except.ok () := by
    rw [sessionBody_ok_shape env cs html1 html2 snap0 snap1 hf1 hp1 hf2 hp2]
  have htrace := runMain_ok_trace env cs hv hc hl hok
  have key : errEventCount c (runMain env).1 =
      pairCountFor c (sampleErrors cs snap0) +
      pairCountFor c (reconErrors cs (startMap cs snap0) snap1) := by
    rw [htrace]
    dsimp only
    rw [sessionBody_ok_shape env cs html1 html2 snap0 snap1 hf1 hp1 hf2 hp2]
    dsimp only
    unfold errEventCount
    simp only [List.filter_append]
    rw [show List.filter (isErrorFor c) [Eff.ensureFiles] = [] from rfl,
      show List.filter (isErrorFor c)
        [Eff.writeLock (env.runId ++ "|" ++ env.startedIso)] = [] from rfl,
      show List.filter (isErrorFor c) [Eff.sleep (max 1 env.sleepSeconds)] = []
        from rfl,
      show List.filter (isErrorFor c)
        [Eff.appendResults env.runId (sessionRows cs snap0 snap1),
         Eff.appendRun env.runId env.note] = [] from rfl,
      show List.filter (isErrorFor c) [Eff.unlinkLock (!env.unlinkFails)] = []
        from rfl,
      filter_isErrorFor_map c env.runId (sampleErrors cs snap0),
      filter_isErrorFor_map c env.runId
        (reconErrors cs (startMap cs snap0) snap1)]
    simp [pairCountFor]
  rw [key, sampleErrors_count snap0 c cs,
    reconErrors_count (startMap cs snap0) snap1 c cs, hgetsm, hcount]
  constructor
  · intro h0 h1
    have h1' : ¬dictGet snap1 c = none := by
      intro hh
      rw [hh] at h1
      exact Bool.noConfusion h1
    simp [h0, h1']
  · intro h0 h1
    have h0' : ¬dictGet snap0 c = none := by
      intro hh
      rw [hh] at h0
      exact Bool.noConfusion h0
    simp [h0', h1]

/-- First-sample document: only Alice appears. -/
def htmlA : Html :=
  [⟨"Netherworld", some [["", "Alice", "10", "", "50%", ""]]⟩]

/-- Second-sample document: Alice and Bob appear. -/
def htmlAB : Html :=
  [⟨"Netherworld", some [["", "Alice", "10", "", "55%", ""],
    ["", "Bob", "8", "", "10%", ""]]⟩]

/-- Snapshot parsed from `htmlA`. -/
def snapA : SnapMap := [("Alice", ⟨"Alice", 10, ratOfParts ['5', '0'] []⟩)]

/-- Snapshot parsed from `htmlAB`. -/
def snapAB : SnapMap :=
  [("Alice", ⟨"Alice", 10, ratOfParts ['5', '5'] []⟩),
   ("Bob", ⟨"Bob", 8, ratOfParts ['1', '0'] []⟩)]

/-- Environment whose two fetches return `htmlA` and `htmlAB`. -/
def envC4 : Env :=
  { env0 with fetch1 := Except.ok htmlA, fetch2 := Except.ok htmlAB }

/-- Claim C4 counterexample: Bob is tracked, missing only at the first
sample, yet the session records TWO ErrorEvents for Bob, not exactly
one. -/
theorem missing_side_error_count_cex :
    parse_netherworld htmlA = Except.ok snapA ∧
    parse_netherworld htmlAB = Except.ok snapAB ∧
    dictGet snapA "Bob" = none ∧
    (dictGet snapAB "Bob").isSome = true ∧
    errEventCount "Bob" (runMain envC4).1 = 2 ∧
    errEventCount "Bob" (runMain envC4).1 ≠ 1 := by
  refine ⟨rfl, rfl, rfl, rfl, ?_, ?_⟩
  · decide
  · decide

/-- Concrete instantiation of the amended C4 theorem on `envC4`. -/
theorem missing_side_error_count_witness :
    (List.count "Bob" ["Alice", "Bob"] = 1) ∧
    ((dictGet snapA "Bob" = none → (dictGet snapAB "Bob").isSome →
      errEventCount "Bob" (runMain envC4).1 = 2) ∧
     ((dictGet snapA "Bob").isSome → dictGet snapAB "Bob" = none →
      errEventCount "Bob" (runMain envC4).1 = 1)) :=
  ⟨rfl,
   missing_side_error_count envC4 ["Alice", "Bob"] "Bob" htmlA htmlAB
     snapA snapAB rfl rfl rfl rfl rfl rfl rfl rfl⟩

end ExpTracker
